import Mathlib

/-!
Verification development for the multi-provider LLM chat client in
`src/rag/llm/chat_model.py` (classes `Base` and `LiteLLMBase`).

The Python code is shallowly embedded: pure helpers become Lean functions,
the retry / tool-round loops become fuel-indexed recursions whose fuel is
exactly the Python `range` bound, provider requests and the injected tool
session become explicit oracles (`Except String _`, the `error` carrying the
text of the raised exception), and the mutable conversation list becomes
explicitly threaded state.  Machine integers do not occur (Python ints are
unbounded); the one float, the `1.2` buffer ratio of
`_calculate_dynamic_ctx`, is modelled by exact truncated rational
arithmetic `(n * 12) / 10`.
-/

set_option maxRecDepth 4000

namespace RagChat

/-- The error taxonomy `LLMErrorCode` (src/rag/llm/chat_model.py, lines 41-53). -/
inductive LLMErrorCode where
  | ERROR_RATE_LIMIT
  | ERROR_AUTHENTICATION
  | ERROR_INVALID_REQUEST
  | ERROR_SERVER
  | ERROR_TIMEOUT
  | ERROR_CONNECTION
  | ERROR_MODEL
  | ERROR_MAX_ROUNDS
  | ERROR_CONTENT_FILTER
  | ERROR_QUOTA
  | ERROR_MAX_RETRIES
  | ERROR_GENERIC
  deriving DecidableEq, Repr

/-- The `StrEnum` string value of each taxonomy member (lines 42-53). -/
def LLMErrorCode.text : LLMErrorCode → String
  | .ERROR_RATE_LIMIT => "RATE_LIMIT_EXCEEDED"
  | .ERROR_AUTHENTICATION => "AUTH_ERROR"
  | .ERROR_INVALID_REQUEST => "INVALID_REQUEST"
  | .ERROR_SERVER => "SERVER_ERROR"
  | .ERROR_TIMEOUT => "TIMEOUT"
  | .ERROR_CONNECTION => "CONNECTION_ERROR"
  | .ERROR_MODEL => "MODEL_ERROR"
  | .ERROR_MAX_ROUNDS => "ERROR_MAX_ROUNDS"
  | .ERROR_CONTENT_FILTER => "CONTENT_FILTERED"
  | .ERROR_QUOTA => "QUOTA_EXCEEDED"
  | .ERROR_MAX_RETRIES => "MAX_RETRIES_EXCEEDED"
  | .ERROR_GENERIC => "GENERIC_ERROR"

/-- `pat` occurs as a contiguous sublist of the second argument. -/
def charsContain (pat : List Char) : List Char → Bool
  | [] => pat.isEmpty
  | c :: rest => pat.isPrefixOf (c :: rest) || charsContain pat rest

/-- Substring test: models `re.search("(w1|w2|...)", s)` for the plain keywords of
`_classify_error` (none of them contains a regex metacharacter), i.e. plain
substring containment of one alternative. -/
def strContains (s pat : String) : Bool := charsContain pat.data s.data

/-- Python `str.lower()`, modelled character-wise (`Char.toLower` lowers the
ASCII range, which covers every keyword of the classifier). -/
def to_lower (s : String) : String := String.mk (s.data.map Char.toLower)

/-- Keyword group for `ERROR_QUOTA` (line 89). -/
def quota_words : List String := ["quota", "capacity", "credit", "billing", "balance", "欠费"]

/-- Keyword group for `ERROR_RATE_LIMIT` (line 90). -/
def rate_limit_words : List String :=
  ["rate limit", "429", "tpm limit", "too many requests", "requests per minute"]

/-- Keyword group for `ERROR_AUTHENTICATION` (line 91). -/
def auth_words : List String := ["auth", "key", "apikey", "401", "forbidden", "permission"]

/-- Keyword group for `ERROR_INVALID_REQUEST` (line 92). -/
def invalid_words : List String := ["invalid", "bad request", "400", "format", "malformed", "parameter"]

/-- Keyword group for `ERROR_SERVER` (line 93). -/
def server_words : List String := ["server", "503", "502", "504", "500", "unavailable"]

/-- Keyword group for `ERROR_TIMEOUT` (line 94). -/
def timeout_words : List String := ["timeout", "timed out"]

/-- Keyword group for `ERROR_CONNECTION` (line 95). -/
def connection_words : List String := ["connect", "network", "unreachable", "dns"]

/-- Keyword group for `ERROR_CONTENT_FILTER` (line 96). -/
def filter_words : List String := ["filter", "content", "policy", "blocked", "safety", "inappropriate"]

/-- Keyword group for `ERROR_MODEL` (line 97). -/
def model_words : List String := ["model", "not found", "does not exist", "not available"]

/-- Keyword group for the second `ERROR_MODEL` entry (line 98). -/
def max_rounds_words : List String := ["max rounds"]

/-- The ordered `keywords_mapping` list of `_classify_error` (lines 88-99). -/
def keywords_mapping : List (List String × LLMErrorCode) :=
  [(quota_words, .ERROR_QUOTA),
   (rate_limit_words, .ERROR_RATE_LIMIT),
   (auth_words, .ERROR_AUTHENTICATION),
   (invalid_words, .ERROR_INVALID_REQUEST),
   (server_words, .ERROR_SERVER),
   (timeout_words, .ERROR_TIMEOUT),
   (connection_words, .ERROR_CONNECTION),
   (filter_words, .ERROR_CONTENT_FILTER),
   (model_words, .ERROR_MODEL),
   (max_rounds_words, .ERROR_MODEL)]

/-- One keyword group matches the (already lower-cased) error text:
`re.search` of the alternation of the group's words (line 101). -/
def group_matches (error_str : String) (words : List String) : Bool :=
  words.any (fun w => strContains error_str w)

/-- `Base._classify_error` (lines 84-104): lower-case the error text, scan the
ordered groups, first match wins, fall back to `ERROR_GENERIC`. -/
def classify_error (error : String) : LLMErrorCode :=
  let error_str := to_lower error
  match keywords_mapping.find? (fun g => group_matches error_str g.1) with
  | some g => g.2
  | none => .ERROR_GENERIC

/-- The `_retryable_errors` set (lines 283-288). -/
def retryable_errors : List LLMErrorCode := [.ERROR_RATE_LIMIT, .ERROR_SERVER]

/-- `Base._should_retry` (lines 290-291). -/
def should_retry (error_code : LLMErrorCode) : Bool := retryable_errors.contains error_code

/-- The `ERROR_PREFIX` marker constant (line 61). -/
def errorMark : String := "**ERROR**"

/-- The formatted terminal error string `f"{ERROR_PREFIX}: {error_code} - {str(e)}"`
(line 306). -/
def error_message (code : LLMErrorCode) (e : String) : String :=
  errorMark ++ ": " ++ code.text ++ " - " ++ e

/-- `Base._exceptions` (lines 293-308): classify, override the code with
`ERROR_MAX_RETRIES` on the final attempt, return `none` (retry after a sleep)
when the code is retryable, otherwise the formatted terminal error string. -/
def exceptions_step (max_retries : Nat) (e : String) (attempt : Nat) : Option String :=
  let c0 := classify_error e
  let error_code := if attempt == max_retries then LLMErrorCode.ERROR_MAX_RETRIES else c0
  if should_retry error_code then none
  else some (error_message error_code e)

/-- Message roles. -/
inductive Role where
  | system
  | user
  | assistant
  | tool
  deriving DecidableEq, Repr

/-- The `function` payload of a tool call. -/
structure ToolFunc where
  name : String
  arguments : String
  deriving DecidableEq, Repr

/-- A tool call as carried in responses and echoed into history. -/
structure ToolCall where
  index : Nat
  id : String
  function : ToolFunc
  deriving DecidableEq, Repr

/-- One conversation message (role, content, optional tool calls,
optional tool_call_id); absent fields are modelled by `[]` / `""`. -/
structure Message where
  role : Role
  content : String
  tool_calls : List ToolCall
  tool_call_id : String
  deriving DecidableEq, Repr

/-- The system message inserted by history normalization. -/
def system_message (system : String) : Message :=
  { role := Role.system, content := system, tool_calls := [], tool_call_id := "" }

/-- The shared normalization step
`if system and history and history[0].get("role") != "system": history.insert(0, ...)`
(e.g. `Base.chat`, lines 469-471). -/
def normalize_history (system : String) (history : List Message) : List Message :=
  match history with
  | [] => history
  | m :: _ =>
    if system ≠ "" ∧ m.role ≠ Role.system then system_message system :: history
    else history

/-- The `allowed_conf` allow-list of `Base._clean_conf` (lines 110-131). -/
def allowed_conf : List String :=
  ["temperature", "max_completion_tokens", "top_p", "stream", "stream_options", "stop", "n",
   "presence_penalty", "frequency_penalty", "functions", "function_call", "logit_bias", "user",
   "response_format", "seed", "tools", "tool_choice", "logprobs", "top_logprobs", "extra_headers"]

/-- `Base._clean_conf` (lines 106-140): drop the legacy `max_tokens` key, keep only
allow-listed keys, and return an empty config when the lower-cased model name
contains `"gpt-5"`.  The generation config dict is modelled as an association
list of keys to values. -/
def clean_conf {α : Type} (model_name : String) (gen_conf : List (String × α)) :
    List (String × α) :=
  let conf1 := gen_conf.filter (fun kv => kv.1 != "max_tokens")
  let conf2 := conf1.filter (fun kv => allowed_conf.contains kv.1)
  if strContains (to_lower model_name) "gpt-5" then [] else conf2

/-- `LiteLLMBase._clean_conf` (lines 869-872): only the legacy `max_tokens` key is
removed; there is no allow-list filtering and no model-name-based clearing. -/
def litellm_clean_conf {α : Type} (gen_conf : List (String × α)) : List (String × α) :=
  gen_conf.filter (fun kv => kv.1 != "max_tokens")

/-- Modelled from the spec: `is_chinese` is imported from `rag.nlp`, whose source is
not part of this snapshot; the spec says truncation notices are "localized to
Chinese or English by detecting the dominant script of the produced text". -/
def is_chinese (s : String) : Bool :=
  decide (s.data.length < 2 * (s.data.filter (fun c => 0x4E00 ≤ c.toNat && c.toNat ≤ 0x9FFF)).length)

/-- Modelled from the spec: `num_tokens_from_string` is imported from
`common.token_utils`, whose source is not part of this snapshot; the spec calls it
"a text-length-based token estimator". -/
def num_tokens_from_string (s : String) : Nat := s.length

/-- `LENGTH_NOTIFICATION_CN` (line 62). -/
def LENGTH_NOTIFICATION_CN : String :=
  "······\n由于大模型的上下文窗口大小限制，回答已经被大模型截断。"

/-- `LENGTH_NOTIFICATION_EN` (line 63). -/
def LENGTH_NOTIFICATION_EN : String :=
  "...\nThe answer is truncated by your chosen LLM due to its limitation on context length."

/-- `Base._length_stop` (lines 278-281). -/
def length_stop (ans : String) : String :=
  if is_chinese ans then ans ++ LENGTH_NOTIFICATION_CN else ans ++ LENGTH_NOTIFICATION_EN

/-! ### Dynamic context sizing (`Base._calculate_dynamic_ctx`, lines 772-806) -/

/-- The inner `count_tokens` helper: 1 unit per ASCII character, 2 per non-ASCII. -/
def count_tokens (text : String) : Nat :=
  text.data.foldl (fun total c => if c.toNat < 128 then total + 1 else total + 2) 0

/-- The per-message accumulation: content units plus the fixed 4-unit role overhead. -/
def history_tokens (history : List Message) : Nat :=
  history.foldl (fun total m => total + count_tokens m.content + 4) 0

/-- `int(total_tokens * 1.2)` modelled by exact truncated rational arithmetic. -/
def buffered_total (history : List Message) : Nat := history_tokens history * 12 / 10

/-- `Base._calculate_dynamic_ctx` (lines 772-806). -/
def calculate_dynamic_ctx (history : List Message) : Nat :=
  let b := buffered_total history
  if b ≤ 8192 then 8192 else (b / 8192 + 1) * 8192

/-- Spec-side per-character estimate, following the claim's words
("1 unit per ASCII character of its content, 2 units per non-ASCII character"). -/
def spec_char_units (c : Char) : Nat := if c.toNat < 128 then 1 else 2

/-- Spec-side per-message estimate ("plus a fixed 4-unit role overhead"). -/
def spec_message_units (m : Message) : Nat := (m.content.data.map spec_char_units).sum + 4

/-- Spec-side buffered total ("summing per message ..., multiplying the total by 1.2
(truncated to an integer)"). -/
def spec_buffered (history : List Message) : Nat :=
  ((history.map spec_message_units).sum * 12) / 10

/-! ### The non-streaming response tail of `Base._chat` (lines 180-187) -/

/-- The `message` object of the first choice of a non-streaming response. -/
structure RespMsg where
  content : Option String
  deriving DecidableEq, Repr

/-- One element of `response.choices`; a missing `message` attribute is `none`. -/
structure Choice0 where
  message : Option RespMsg
  finish_reason : String
  deriving DecidableEq, Repr

/-- A non-streaming provider response; `usage_tokens` models
`total_token_count_from_response(response)` (from `common.token_utils`,
not in this snapshot: per the spec the adapter "reports token usage"). -/
structure ChatResponse where
  choices : List Choice0
  usage_tokens : Nat
  deriving DecidableEq, Repr

/-- The content of the first choice's message, `none` when any link of
`response.choices[0].message.content` is missing. -/
def first_message_content (r : ChatResponse) : Option String :=
  match r.choices with
  | [] => none
  | c :: _ =>
    match c.message with
    | none => none
    | some m => m.content

/-- The response-handling tail of `Base._chat` (lines 180-187), i.e. the non-"qwq"
path (models whose name contains "qwq" are delegated to the streaming helper
before any of this runs).  Python's falsy test `not ... content` covers both
`None` and the empty string. -/
def chat_response (r : ChatResponse) : String × Nat :=
  match r.choices with
  | [] => ("", 0)
  | c :: _ =>
    match c.message with
    | none => ("", 0)
    | some m =>
      match m.content with
      | none => ("", 0)
      | some s =>
        if s = "" then ("", 0)
        else
          let ans := s.trim
          let ans2 := if c.finish_reason = "length" then length_stop ans else ans
          (ans2, r.usage_tokens)

/-! ### The retry skeleton of `Base.chat` (lines 469-482) -/

/-- The body of `for attempt in range(self.max_retries + 1)` in `Base.chat`:
`provider attempt` abstracts `self._chat(history, gen_conf)` on attempt number
`attempt` (`Except.error` carrying the text of a raised exception); fuel counts
the remaining loop iterations; `none` models the unreachable
`assert False, "Shouldn't be here."`.  The result pairs the returned
`(answer-or-error-string, token count)` with the number of attempts made. -/
def chat_from (max_retries : Nat) (provider : Nat → Except String (String × Nat)) :
    Nat → Nat → Option ((String × Nat) × Nat)
  | 0, _ => none
  | fuel + 1, attempt =>
    match provider attempt with
    | Except.ok r => some (r, attempt + 1)
    | Except.error e =>
      match exceptions_step max_retries e attempt with
      | some msg => some ((msg, 0), attempt + 1)
      | none => chat_from max_retries provider fuel (attempt + 1)

/-- `Base.chat`'s retry loop entered at attempt 0 with the full
`max_retries + 1` iterations. -/
def chat_retry (max_retries : Nat) (provider : Nat → Except String (String × Nat)) :
    Option ((String × Nat) × Nat) :=
  chat_from max_retries provider (max_retries + 1) 0

/-! ### `Base.chat_streamly` (lines 757-770) -/

/-- An element of the visible stream: a text delta or the final token count. -/
inductive StreamOut where
  | text (s : String)
  | count (n : Nat)
  deriving DecidableEq, Repr

/-- `Base.chat_streamly` (lines 757-770): the underlying `_chat_streamly` generator is
abstracted as the list of `(delta, token)` pairs it yields before either finishing
or raising `openai.APIError` (whose text is `apiErr`).  The local `ans` is
initialised to `""` and never reassigned inside the loop, so the in-band error
yield is `"" + "\n**ERROR**: " + str(e)`; the cumulative token count is always
yielded last, after the `try`/`except`. -/
def chat_streamly_out (deltas : List (String × Nat)) (apiErr : Option String) :
    List StreamOut :=
  let yields := deltas.map (fun d => StreamOut.text d.1)
  let total := deltas.foldl (fun acc d => acc + d.2) 0
  match apiErr with
  | some e => yields ++ [StreamOut.text ("" ++ "\n" ++ errorMark ++ ": " ++ e), StreamOut.count total]
  | none => yields ++ [StreamOut.count total]

/-! ### The tool-calling loop of `Base.chat_with_tools` (lines 360-413) -/

/-- The `message` of the first choice of a tool-round response; an absent or
falsy `reasoning_content` attribute is `""`, absent `tool_calls` is `[]`. -/
structure ToolRespMessage where
  content : String
  reasoning_content : String
  tool_calls : List ToolCall
  deriving DecidableEq, Repr

/-- A tool-round response.  `message = none` models a response failing the
structure check `any([not response.choices, not response.choices[0].message])`
(line 376), on which the code raises; `tokens` models
`total_token_count_from_response(response)`. -/
structure ToolResponse where
  message : Option ToolRespMessage
  finish_reason : String
  tokens : Nat
  deriving DecidableEq, Repr

/-- Oracle for the two kinds of completion request the tool loop issues:
`tool_req n` is the result (normal response or raised-exception text) of the
`n`-th request issued WITH `tools` and `tool_choice="auto"` attached (line 374);
`plain_req n` is the result of the `n`-th plain non-tool `self._chat` request
(line 404), abstracted as its final `(answer, token count)` pair. -/
structure Provider where
  tool_req : Nat → Except String ToolResponse
  plain_req : Nat → Except String (String × Nat)

/-- `Base._verbose_tool_use` (lines 326-327); the `json.dumps` of the
name/args/result record is modelled by a fixed concrete rendering. -/
def verbose_tool_use (name args res : String) : String :=
  "<tool_call>\x7b\"name\": \"" ++ name ++ "\", \"args\": " ++ args ++
    ", \"result\": " ++ res ++ "\x7d</tool_call>"

/-- `Base._append_history` (lines 329-351): append an assistant entry echoing the
requested call and a tool entry carrying the result. -/
def append_history (hist : List Message) (tool_call : ToolCall) (tool_res : String) :
    List Message :=
  hist ++
    [{ role := Role.assistant, content := "", tool_calls := [tool_call], tool_call_id := "" },
     { role := Role.tool, content := tool_res, tool_calls := [], tool_call_id := tool_call.id }]

/-- The tool entry appended when a tool invocation (or its argument parse) raises
(line 399); the Python f-string embeds `repr(tool_call)`, modelled by the call's
id and argument text. -/
def tool_error_entry (tool_call : ToolCall) (e : String) : Message :=
  { role := Role.tool,
    content := "Tool call error: \n" ++ tool_call.id ++ tool_call.function.arguments ++
      "\nException:\n" ++ e,
    tool_calls := [], tool_call_id := tool_call.id }

/-- The `for tool_call in response.choices[0].message.tool_calls` body
(lines 389-400): `session name args` abstracts
`json_repair.loads` + `self.toolcall_session.tool_call(name, args)`, its `error`
being the text of any exception raised inside the per-call `try` (which the code
recovers from locally, never aborting the round). -/
def run_tool_calls (session : String → String → Except String String) :
    List ToolCall → List Message → String → List Message × String
  | [], hist, ans => (hist, ans)
  | tc :: rest, hist, ans =>
    match session tc.function.name tc.function.arguments with
    | Except.ok res =>
      run_tool_calls session rest (append_history hist tc res)
        (ans ++ verbose_tool_use tc.function.name tc.function.arguments res)
    | Except.error e =>
      run_tool_calls session rest (hist ++ [tool_error_entry tc e])
        (ans ++ verbose_tool_use tc.function.name "\x7b\x7d" e)

/-- The synthetic `{"role": "user", "content": f"Exceed max rounds: {self.max_rounds}"}`
message (line 403). -/
def exceed_message (max_rounds : Nat) : Message :=
  { role := Role.user, content := "Exceed max rounds: " ++ toString max_rounds,
    tool_calls := [], tool_call_id := "" }

/-- Outcome of one attempt's inner round loop: a normal `return` or a raised
exception reaching the attempt's `except` handler.  Both carry the accumulated
answer, token count and (mutated) history plus the running counters of tool
and plain requests issued so far. -/
inductive RoundsOut where
  | returned (ans : String) (tk : Nat) (hist : List Message) (nTool nPlain : Nat)
  | excRaise (e : String) (ans : String) (tk : Nat) (hist : List Message) (nTool nPlain : Nat)
  deriving Repr

/-- The inner `for _ in range(self.max_rounds + 1)` loop of `Base.chat_with_tools`
(lines 372-407) with fuel = remaining iterations: each iteration issues one
tool-attached request; a response without tool calls returns; tool calls are
executed and appended to the shared history; on falling off the loop the
synthetic exceed message is appended and one plain `_chat` request is issued. -/
def rounds_loop (P : Provider) (session : String → String → Except String String)
    (max_rounds : Nat) :
    Nat → List Message → String → Nat → Nat → Nat → RoundsOut
  | 0, hist, ans, tk, nTool, nPlain =>
    let hist2 := hist ++ [exceed_message max_rounds]
    match P.plain_req nPlain with
    | Except.ok pr => RoundsOut.returned (ans ++ pr.1) (tk + pr.2) hist2 nTool (nPlain + 1)
    | Except.error e => RoundsOut.excRaise e ans tk hist2 nTool (nPlain + 1)
  | fuel + 1, hist, ans, tk, nTool, nPlain =>
    match P.tool_req nTool with
    | Except.error e => RoundsOut.excRaise e ans tk hist (nTool + 1) nPlain
    | Except.ok resp =>
      let tk2 := tk + resp.tokens
      match resp.message with
      | none => RoundsOut.excRaise "500 response structure error." ans tk2 hist (nTool + 1) nPlain
      | some m =>
        if m.tool_calls.isEmpty then
          let ans2 := ans ++
            (if m.reasoning_content != "" then
              "<think>" ++ m.reasoning_content ++ "</think>" else "") ++ m.content
          let ans3 := if resp.finish_reason == "length" then length_stop ans2 else ans2
          RoundsOut.returned ans3 tk2 hist (nTool + 1) nPlain
        else
          let hist_ans := run_tool_calls session m.tool_calls hist ans
          rounds_loop P session max_rounds fuel hist_ans.1 hist_ans.2 tk2 (nTool + 1) nPlain

/-- Result of a whole `chat_with_tools` call.  `result = none` models the
unreachable `assert False`; `startHists` records the history object as seen at
the top of each retry attempt (line 370, `history = hist`). -/
structure ToolsResult where
  result : Option (String × Nat)
  hist : List Message
  nTool : Nat
  nPlain : Nat
  attempts : Nat
  startHists : List (List Message)
  deriving DecidableEq, Repr

/-- The outer `for attempt in range(self.max_retries + 1)` loop of
`Base.chat_with_tools` (lines 369-411).  Line 370 rebinds `history = hist`
WITHOUT copying, and `_append_history` / `history.append` mutate that shared
list in place, so a retried attempt continues from the history left by the
failed attempt; the state threading below reproduces exactly that (the retry
recursion is passed `hist2`, the mutated history).  `ans` and `tk_count` are
likewise outer-scope in Python and survive a failed attempt. -/
def attempts_loop (P : Provider) (session : String → String → Except String String)
    (max_retries max_rounds : Nat) :
    Nat → Nat → List Message → String → Nat → Nat → Nat → List (List Message) → ToolsResult
  | 0, attempt, hist, _ans, _tk, nTool, nPlain, sh =>
    { result := none, hist := hist, nTool := nTool, nPlain := nPlain,
      attempts := attempt, startHists := sh }
  | fuel + 1, attempt, hist, ans, tk, nTool, nPlain, sh =>
    let sh2 := sh ++ [hist]
    match rounds_loop P session max_rounds (max_rounds + 1) hist ans tk nTool nPlain with
    | RoundsOut.returned ans2 tk2 hist2 nT2 nP2 =>
      { result := some (ans2, tk2), hist := hist2, nTool := nT2, nPlain := nP2,
        attempts := attempt + 1, startHists := sh2 }
    | RoundsOut.excRaise e ans2 tk2 hist2 nT2 nP2 =>
      match exceptions_step max_retries e attempt with
      | some msg =>
        { result := some (msg, tk2), hist := hist2, nTool := nT2, nPlain := nP2,
          attempts := attempt + 1, startHists := sh2 }
      | none =>
        attempts_loop P session max_retries max_rounds fuel (attempt + 1) hist2 ans2 tk2 nT2 nP2 sh2

/-- `Base.chat_with_tools` (lines 360-413): normalize the history, snapshot it
(`hist = deepcopy(history)`) and run the retry loop. -/
def chat_with_tools (P : Provider) (session : String → String → Except String String)
    (max_retries max_rounds : Nat) (system : String) (history : List Message) : ToolsResult :=
  let history2 := normalize_history system history
  attempts_loop P session max_retries max_rounds (max_retries + 1) 0 history2 "" 0 0 0 []

/-- A tool request result whose response carries at least one tool call
(the hypothesis of the tool-loop bound). -/
def tool_call_response (r : Except String ToolResponse) : Bool :=
  match r with
  | Except.ok resp =>
    match resp.message with
    | some m => !m.tool_calls.isEmpty
    | none => false
  | Except.error _ => false

/-! ### Stream assembly of `Base.chat_streamly_with_tools` (lines 498-599) -/

/-- A tool-call fragment as it arrives in a streaming delta: `arguments = none`
models a falsy/absent argument field. -/
structure StreamToolCall where
  index : Nat
  id : String
  name : String
  arguments : Option String
  deriving DecidableEq, Repr

/-- Lookup by index in the `final_tool_calls` dict, modelled as an
insertion-ordered association list. -/
def lookup_call (m : List (Nat × ToolCall)) (i : Nat) : Option ToolCall :=
  (m.find? (fun p => p.1 == i)).map (fun p => p.2)

/-- The call stored for the first fragment at an index (lines 521-524): its id and
name are taken from the fragment and a falsy argument field becomes `""`. -/
def stream_call_init (tc : StreamToolCall) : ToolCall :=
  { index := tc.index, id := tc.id,
    function := { name := tc.name, arguments := tc.arguments.getD "" } }

/-- Concatenate further argument text onto a stored call (line 526). -/
def add_args (c : ToolCall) (s : String) : ToolCall :=
  { index := c.index, id := c.id,
    function := { name := c.function.name, arguments := c.function.arguments ++ s } }

/-- One fragment step of the `final_tool_calls` accumulation (lines 518-526):
the first fragment at an index establishes the call, later fragments at the same
index concatenate their (possibly absent) argument text. -/
def upsert_fragment (m : List (Nat × ToolCall)) (tc : StreamToolCall) :
    List (Nat × ToolCall) :=
  match lookup_call m tc.index with
  | none => m ++ [(tc.index, stream_call_init tc)]
  | some _ =>
    m.map (fun p => if p.1 == tc.index then (p.1, add_args p.2 (tc.arguments.getD "")) else p)

/-- Spec-side: the concatenation, in arrival order, of the argument fragments at
index `i` (an absent argument field contributing `""`). -/
def concat_args (i : Nat) : List StreamToolCall → String
  | [] => ""
  | f :: rest => (if f.index == i then f.arguments.getD "" else "") ++ concat_args i rest

/-- Spec-side assembled call at index `i`, following the claim's words: the first
fragment at the index establishes id and name, and the argument string is the
concatenation of all fragments at that index in arrival order. -/
def spec_assembled_call (frags : List StreamToolCall) (i : Nat) : Option ToolCall :=
  match frags.find? (fun f => f.index == i) with
  | none => none
  | some f0 =>
    some { index := i, id := f0.id,
           function := { name := f0.name, arguments := concat_args i frags } }

/-- The state of the per-chunk loop consuming one round's stream. -/
structure RoundStreamState where
  reasoning_start : Bool
  final_tool_calls : List (Nat × ToolCall)
  answer : String
  total_tokens : Nat
  yields : List String
  deriving DecidableEq, Repr

/-- One streaming delta chunk: a falsy/absent content is `""`, likewise
`reasoning_content`; `usage_tokens = 0` models a falsy provider usage report
(in which case the text-length estimator is added instead). -/
structure StreamChunk where
  tool_calls : List StreamToolCall
  content : String
  reasoning_content : String
  finish_reason : String
  usage_tokens : Nat
  deriving DecidableEq, Repr

/-- One iteration of the `for resp in response` loop of
`Base.chat_streamly_with_tools` (lines 516-555): a chunk carrying tool-call
fragments only accumulates them and `continue`s (yielding nothing); otherwise
reasoning/content text is yielded, the token counter updated (note the sync
Base code ASSIGNS `total_tokens = tol` when usage is reported), and a
length-truncation finish reason yields the localized notice. -/
def process_chunk (st : RoundStreamState) (c : StreamChunk) : RoundStreamState :=
  if c.tool_calls.isEmpty = false then
    { st with final_tool_calls := c.tool_calls.foldl upsert_fragment st.final_tool_calls }
  else
    let tks := if c.usage_tokens == 0 then st.total_tokens + num_tokens_from_string c.content
               else c.usage_tokens
    let tailY := if c.finish_reason == "length" then [length_stop ""] else []
    if c.reasoning_content != "" then
      { reasoning_start := true, final_tool_calls := st.final_tool_calls,
        answer := st.answer, total_tokens := tks,
        yields := st.yields ++
          [(if st.reasoning_start then "" else "<think>") ++ c.reasoning_content ++ "</think>"] ++
          tailY }
    else
      { reasoning_start := false, final_tool_calls := st.final_tool_calls,
        answer := st.answer ++ c.content, total_tokens := tks,
        yields := st.yields ++ [c.content] ++ tailY }

/-- Consume one round's stream from the fresh per-round state
(`reasoning_start = False`, `final_tool_calls = {}`, `answer = ""`). -/
def run_stream (chunks : List StreamChunk) : RoundStreamState :=
  chunks.foldl process_chunk
    { reasoning_start := false, final_tool_calls := [], answer := "",
      total_tokens := 0, yields := [] }

/-! ### Concrete fixtures used by witnesses and counterexamples -/

/-- A plain user message. -/
def user_hi : Message :=
  { role := Role.user, content := "hi", tool_calls := [], tool_call_id := "" }

/-- The single tool call requested by `tools_resp`. -/
def demo_call : ToolCall :=
  { index := 0, id := "call0", function := { name := "f", arguments := "\x7b\x7d" } }

/-- A tool-round response that always requests one tool call. -/
def tools_resp : ToolResponse :=
  { message := some { content := "", reasoning_content := "", tool_calls := [demo_call] },
    finish_reason := "tool_calls", tokens := 1 }

/-- A tool-round response carrying plain text and no tool calls. -/
def text_resp : ToolResponse :=
  { message := some { content := "final answer", reasoning_content := "", tool_calls := [] },
    finish_reason := "stop", tokens := 1 }

/-- A provider whose model insists on tool use on every round. -/
def loop_provider : Provider :=
  { tool_req := fun _ => Except.ok tools_resp,
    plain_req := fun _ => Except.ok ("forced final", 2) }

/-- A session whose every tool call succeeds. -/
def ok_session : String → String → Except String String := fun _ _ => Except.ok "ok"

/-- The C4 scenario provider: the first tool round requests a call, the second
request raises a retryable rate-limit error, and every later request returns a
plain text answer. -/
def cx_provider : Provider :=
  { tool_req := fun n =>
      if n == 0 then Except.ok tools_resp
      else if n == 1 then Except.error "rate limit"
      else Except.ok text_resp,
    plain_req := fun _ => Except.ok ("", 0) }

/-- A single message of 6825 CJK characters: its estimate is
`6825 * 2 + 4 = 13654` units, whose buffered total `13654 * 12 / 10 = 16384`
is an exact multiple of 8192. -/
def big_cn_message : Message :=
  { role := Role.user, content := String.mk (List.replicate 6825 '中'),
    tool_calls := [], tool_call_id := "" }

/-! ## Theorems -/

/-- C3 (counterexample): an error text containing the rate-limit keyword "429" is
NOT classified `RATE_LIMIT_EXCEEDED` when it also contains a quota keyword,
because the quota group is declared first and the first matching group wins:
`"insufficient quota: 429"` classifies as `QUOTA_EXCEEDED`. -/
theorem classify_rate_limit_cex :
    strContains (to_lower "insufficient quota: 429") "429" = true ∧
    classify_error "insufficient quota: 429" = LLMErrorCode.ERROR_QUOTA ∧
    LLMErrorCode.ERROR_QUOTA ≠ LLMErrorCode.ERROR_RATE_LIMIT := by
  refine ⟨?_, ?_, ?_⟩ <;> decide

/-- C3 (amended): for every error whose lower-cased text matches the rate-limit
keyword group and does NOT match the earlier-declared quota group,
`_classify_error` returns `RATE_LIMIT_EXCEEDED` and `_should_retry` accepts it;
moreover the groups are tested in declaration order with the quota group
declared first and the rate-limit group second. -/
theorem classify_rate_limit_amended (e : String)
    (hq : group_matches (to_lower e) quota_words = false)
    (hr : group_matches (to_lower e) rate_limit_words = true) :
    classify_error e = LLMErrorCode.ERROR_RATE_LIMIT ∧
    should_retry (classify_error e) = true ∧
    keywords_mapping.head? = some (quota_words, LLMErrorCode.ERROR_QUOTA) ∧
    keywords_mapping.get? 1 = some (rate_limit_words, LLMErrorCode.ERROR_RATE_LIMIT) := by
  have hc : classify_error e = LLMErrorCode.ERROR_RATE_LIMIT := by
    unfold classify_error keywords_mapping
    simp [List.find?, hq, hr]
  refine ⟨hc, ?_, by decide, by decide⟩
  rw [hc]
  decide

/-- Witness for `classify_rate_limit_amended` at the concrete error text
`"rate limit reached"`. -/
theorem classify_rate_limit_amended_w :
    classify_error "rate limit reached" = LLMErrorCode.ERROR_RATE_LIMIT ∧
    should_retry (classify_error "rate limit reached") = true := by
  have h := classify_rate_limit_amended "rate limit reached" (by decide) (by decide)
  exact ⟨h.1, h.2.1⟩

/-- C7 (counterexample): the LiteLLM adapter's `_clean_conf` does NOT remove keys
outside the allow-list — a key unknown to every allow-list survives — so the
claim's "for every provider adapter" fails. -/
theorem clean_conf_cex :
    litellm_clean_conf [("custom_knob", (1 : Int))] = [("custom_knob", (1 : Int))] ∧
    allowed_conf.contains "custom_knob" = false := by
  exact ⟨by decide, by decide⟩

/-- C7 (amended): for the OpenAI-compatible `Base` adapter, `_clean_conf` keeps
only allow-listed keys, always removes the legacy `max_tokens` key, and returns
an empty config when the lower-cased model name contains "gpt-5"; the LiteLLM
adapter's `_clean_conf` only removes `max_tokens`. -/
theorem clean_conf_amended (model_name : String) (conf : List (String × Int)) :
    (clean_conf model_name conf).all (fun kv => allowed_conf.contains kv.1) = true ∧
    (clean_conf model_name conf).all (fun kv => kv.1 != "max_tokens") = true ∧
    (strContains (to_lower model_name) "gpt-5" = true → clean_conf model_name conf = []) ∧
    litellm_clean_conf conf = conf.filter (fun kv => kv.1 != "max_tokens") := by
  refine ⟨?_, ?_, ?_, rfl⟩
  · unfold clean_conf
    split
    · rfl
    · simp only [List.all_eq_true, List.mem_filter]
      intro kv hkv
      exact hkv.2
  · unfold clean_conf
    split
    · rfl
    · simp only [List.all_eq_true, List.mem_filter]
      intro kv hkv
      exact hkv.1.2
  · intro hg
    unfold clean_conf
    rw [hg]
    simp

/-- Witness for `clean_conf_amended` at model "gpt-5-mini" with a temperature
setting and a legacy `max_tokens` key. -/
theorem clean_conf_amended_w :
    clean_conf "gpt-5-mini" [("temperature", (1 : Int)), ("max_tokens", (2 : Int))] = [] := by
  exact (clean_conf_amended "gpt-5-mini"
    [("temperature", (1 : Int)), ("max_tokens", (2 : Int))]).2.2.1 (by decide)

/-- C8: normalization never duplicates a leading system message — if the history's
first entry already has role `system` it is returned unchanged for ANY `system`
argument — and when `system` is non-empty, the history non-empty and its first
entry not a system message, exactly the new system message is prepended at
position 0 with all existing entries preserved in order. -/
theorem normalize_system_idempotent (system : String) (history : List Message) :
    (∀ m rest, history = m :: rest → m.role = Role.system →
      normalize_history system history = history) ∧
    (∀ m rest, history = m :: rest → system ≠ "" → m.role ≠ Role.system →
      normalize_history system history = system_message system :: history) := by
  constructor
  · intro m rest hh hm
    subst hh
    simp [normalize_history, hm]
  · intro m rest hh hs hm
    subst hh
    simp [normalize_history, hs, hm]

/-- Witness for `normalize_system_idempotent`: a history starting with a system
message is untouched; a user-first history gets exactly one system message
prepended. -/
theorem normalize_system_idempotent_w :
    normalize_history "sys" [system_message "s0"] = [system_message "s0"] ∧
    normalize_history "sys" [user_hi] = system_message "sys" :: [user_hi] := by
  exact ⟨(normalize_system_idempotent "sys" [system_message "s0"]).1 (system_message "s0") []
          rfl rfl,
        (normalize_system_idempotent "sys" [user_hi]).2 user_hi [] rfl (by decide) (by decide)⟩

/-- C10: whenever the provider response has no choices, a missing first message,
or a `None`/empty message content, the non-streaming `Base._chat` returns the
pair `("", 0)` — an in-band empty answer with zero token count, not an error. -/
theorem empty_response_chat (r : ChatResponse)
    (h : first_message_content r = none ∨ first_message_content r = some "") :
    chat_response r = ("", 0) := by
  rcases r with ⟨choices, tk⟩
  cases choices with
  | nil => rfl
  | cons c rest =>
    rcases c with ⟨msg, fr⟩
    cases msg with
    | none => rfl
    | some m =>
      rcases m with ⟨co⟩
      cases co with
      | none => rfl
      | some s =>
        simp only [first_message_content, Option.some.injEq, reduceCtorEq, false_or] at h
        subst h
        simp [chat_response]

/-- Witness for `empty_response_chat` at a response with an empty choices list. -/
theorem empty_response_chat_w :
    chat_response { choices := [], usage_tokens := 7 } = ("", 0) := by
  exact empty_response_chat { choices := [], usage_tokens := 7 } (Or.inl rfl)

/-- Folding the per-character token weights from any accumulator equals the
accumulator plus the sum of the weights. -/
theorem foldl_char_units (l : List Char) :
    ∀ a : Nat,
      l.foldl (fun total c => if c.toNat < 128 then total + 1 else total + 2) a
        = a + (l.map spec_char_units).sum := by
  induction l with
  | nil => intro a; simp
  | cons c t ih =>
    intro a
    simp only [List.foldl, List.map, List.sum_cons]
    rw [ih]
    unfold spec_char_units
    split <;> omega

/-- `count_tokens` equals the spec-side sum of per-character units. -/
theorem count_tokens_eq (s : String) :
    count_tokens s = (s.data.map spec_char_units).sum := by
  unfold count_tokens
  rw [foldl_char_units]
  omega

/-- Folding the per-message estimates from any accumulator equals the
accumulator plus the sum of the spec-side per-message units. -/
theorem foldl_message_units (l : List Message) :
    ∀ a : Nat,
      l.foldl (fun total m => total + count_tokens m.content + 4) a
        = a + (l.map spec_message_units).sum := by
  induction l with
  | nil => intro a; simp
  | cons m t ih =>
    intro a
    simp only [List.foldl, List.map, List.sum_cons]
    rw [ih, count_tokens_eq]
    unfold spec_message_units
    omega

/-- The code's buffered total coincides with the spec-side estimate. -/
theorem buffered_total_eq (history : List Message) :
    buffered_total history = spec_buffered history := by
  unfold buffered_total history_tokens spec_buffered
  rw [foldl_message_units, Nat.zero_add]

/-- C9 (counterexample): a history whose buffered total is `16384` — an exact
multiple of 8192 — is mapped by `_calculate_dynamic_ctx` to `24576`, the next
multiple strictly above, not to `16384` itself. -/
theorem dynamic_ctx_cex :
    buffered_total [big_cn_message] = 16384 ∧
    16384 % 8192 = 0 ∧
    calculate_dynamic_ctx [big_cn_message] = 24576 := by
  have hcn : spec_char_units '中' = 2 := by decide
  have hrep : (List.map spec_char_units (List.replicate 6825 '中')).sum = 2 * 6825 := by
    rw [List.map_replicate, hcn, List.sum_replicate, smul_eq_mul]
  have hm : spec_message_units big_cn_message = 13654 := by
    unfold spec_message_units
    have hdata : big_cn_message.content.data = List.replicate 6825 '中' := rfl
    rw [hdata, hrep]
  have hb : buffered_total [big_cn_message] = 16384 := by
    rw [buffered_total_eq]
    unfold spec_buffered
    simp only [List.map_cons, List.map_nil, List.sum_cons, List.sum_nil, hm]
    norm_num
  refine ⟨hb, by norm_num, ?_⟩
  simp only [calculate_dynamic_ctx]
  rw [hb]
  norm_num

/-- C9 (amended): the context size is computed from the per-message estimate
(1 unit per ASCII character, 2 per non-ASCII, plus a 4-unit role overhead, the
total multiplied by 1.2 and truncated); buffered totals up to 8192 map to 8192,
and any larger buffered total maps to `(buffered / 8192 + 1) * 8192` — the
multiple of 8192 strictly above it — so an exact multiple above 8192 maps to the
NEXT multiple, not to itself. -/
theorem dynamic_ctx_amended (history : List Message) :
    buffered_total history = spec_buffered history ∧
    (buffered_total history ≤ 8192 → calculate_dynamic_ctx history = 8192) ∧
    (8192 < buffered_total history →
      calculate_dynamic_ctx history = (buffered_total history / 8192 + 1) * 8192 ∧
      buffered_total history < calculate_dynamic_ctx history ∧
      calculate_dynamic_ctx history % 8192 = 0) := by
  refine ⟨buffered_total_eq history, ?_, ?_⟩
  · intro hle
    simp only [calculate_dynamic_ctx]
    rw [if_pos hle]
  · intro hlt
    have hnot : ¬ buffered_total history ≤ 8192 := by omega
    have hcalc : calculate_dynamic_ctx history = (buffered_total history / 8192 + 1) * 8192 := by
      simp only [calculate_dynamic_ctx]
      rw [if_neg hnot]
    refine ⟨hcalc, ?_, ?_⟩
    · rw [hcalc]
      have hdm := Nat.div_add_mod (buffered_total history) 8192
      have hm : buffered_total history % 8192 < 8192 := Nat.mod_lt _ (by norm_num)
      omega
    · rw [hcalc]
      exact Nat.mul_mod_left _ 8192

/-- Witness for `dynamic_ctx_amended`: a short history stays at the 8192 base
window. -/
theorem dynamic_ctx_amended_w : calculate_dynamic_ctx [user_hi] = 8192 := by
  exact (dynamic_ctx_amended [user_hi]).2.1 (by decide)

/-- On the final attempt the override makes the classified code
`ERROR_MAX_RETRIES`, which is not retryable, so `_exceptions` returns the
formatted terminal string. -/
theorem exceptions_step_last (N : Nat) (e : String) :
    exceptions_step N e N = some (error_message LLMErrorCode.ERROR_MAX_RETRIES e) := by
  unfold exceptions_step
  simp [should_retry, retryable_errors]

/-- Before the final attempt, a retryably-classified error makes `_exceptions`
return `none` (sleep and retry). -/
theorem exceptions_step_retry (N : Nat) (e : String) (a : Nat) (ha : a ≠ N)
    (hr : should_retry (classify_error e) = true) :
    exceptions_step N e a = none := by
  unfold exceptions_step
  simp [ha, hr]

/-- The retry loop of `Base.chat`, entered at attempt `a` with matching fuel,
returns the max-retries error after exhausting all remaining attempts when the
provider fails retryably throughout. -/
theorem chat_from_exhaust (N : Nat) (provider : Nat → Except String (String × Nat))
    (efn : Nat → String)
    (hp : ∀ a, a ≤ N → provider a = Except.error (efn a))
    (hr : ∀ a, a ≤ N → should_retry (classify_error (efn a)) = true) :
    ∀ k a, 0 < k → a + k = N + 1 →
      chat_from N provider k a =
        some ((error_message LLMErrorCode.ERROR_MAX_RETRIES (efn N), 0), N + 1) := by
  intro k
  induction k with
  | zero => intro a h0 _; omega
  | succ k ih =>
    intro a _ hsum
    by_cases hk : k = 0
    · subst hk
      have ha : a = N := by omega
      rw [ha]
      simp only [chat_from, hp N le_rfl, exceptions_step_last N (efn N)]
    · have haN : a < N := by omega
      simp only [chat_from, hp a (le_of_lt haN),
        exceptions_step_retry N (efn a) a (by omega) (hr a (le_of_lt haN))]
      exact ih (a + 1) (by omega) (by omega)

/-- C2: with `max_retries = N` and a provider failing on every attempt with a
retryably-classified error, `Base.chat`'s loop makes exactly `N + 1` attempts and
returns the formatted error string whose code is `MAX_RETRIES_EXCEEDED`
(the final attempt's classification is overridden), with a zero token count. -/
theorem chat_retry_exhaustion (N : Nat) (provider : Nat → Except String (String × Nat))
    (efn : Nat → String)
    (hp : ∀ a, a ≤ N → provider a = Except.error (efn a))
    (hr : ∀ a, a ≤ N → should_retry (classify_error (efn a)) = true) :
    chat_retry N provider =
      some ((error_message LLMErrorCode.ERROR_MAX_RETRIES (efn N), 0), N + 1) := by
  exact chat_from_exhaust N provider efn hp hr (N + 1) 0 (by omega) (by omega)

/-- Witness for `chat_retry_exhaustion`: two attempts (`max_retries = 1`) against
a provider that always raises a rate-limit error. -/
theorem chat_retry_exhaustion_w :
    chat_retry 1 (fun _ => Except.error "rate limit") =
      some ((error_message LLMErrorCode.ERROR_MAX_RETRIES "rate limit", 0), 2) := by
  exact chat_retry_exhaustion 1 (fun _ => Except.error "rate limit") (fun _ => "rate limit")
    (fun _ _ => rfl)
    (fun _ _ => by
      show should_retry (classify_error "rate limit") = true
      decide)

/-- A list with two trailing elements ends in the second. -/
theorem getLast?_append_two {α : Type} (l : List α) (x y : α) :
    (l ++ [x, y]).getLast? = some y := by
  rw [show l ++ [x, y] = (l ++ [x]) ++ [y] by simp]
  exact List.getLast?_concat _

/-- C6: a terminal (non-retried) failure is surfaced by `_exceptions` as the
in-band string `**ERROR**: <CODE> - <original message>` built from the
(possibly max-retries-overridden) classified code — returned as a value, never
raised — and `chat_streamly`'s stream always ends with the cumulative token
count as its final element, including when an in-band error string was yielded. -/
theorem terminal_error_and_stream_count :
    (∀ (N : Nat) (e : String) (a : Nat) (msg : String),
      exceptions_step N e a = some msg →
      msg = error_message
              (if a == N then LLMErrorCode.ERROR_MAX_RETRIES else classify_error e) e ∧
      should_retry
        (if a == N then LLMErrorCode.ERROR_MAX_RETRIES else classify_error e) = false) ∧
    (∀ (deltas : List (String × Nat)) (apiErr : Option String),
      (chat_streamly_out deltas apiErr).getLast? =
        some (StreamOut.count (deltas.foldl (fun acc d => acc + d.2) 0))) := by
  constructor
  · intro N e a msg h
    simp only [exceptions_step] at h
    by_cases hb :
        should_retry
          (if a == N then LLMErrorCode.ERROR_MAX_RETRIES else classify_error e) = true
    · rw [if_pos hb] at h
      simp at h
    · rw [if_neg hb] at h
      simp only [Option.some.injEq] at h
      exact ⟨h.symm, by simpa using hb⟩
  · intro deltas apiErr
    cases apiErr with
    | none =>
      simp only [chat_streamly_out]
      exact List.getLast?_concat _
    | some e =>
      simp only [chat_streamly_out]
      exact getLast?_append_two _ _ _

/-- Witness for `terminal_error_and_stream_count`: the non-retryable code of an
invalid-request failure on attempt 0 of 5, and a one-delta stream that raised an
API error still ending in its token count. -/
theorem terminal_error_and_stream_count_w :
    should_retry
        (if (0 : Nat) == 5 then LLMErrorCode.ERROR_MAX_RETRIES
         else classify_error "invalid prompt") = false ∧
    (chat_streamly_out [("a", 3)] (some "boom")).getLast? = some (StreamOut.count 3) := by
  exact ⟨(terminal_error_and_stream_count.1 5 "invalid prompt" 0
            (error_message LLMErrorCode.ERROR_INVALID_REQUEST "invalid prompt")
            (by decide)).2,
         terminal_error_and_stream_count.2 [("a", 3)] (some "boom")⟩

/-- When every tool-attached request of the inner round loop returns a response
carrying tool calls, the loop consumes all its fuel, appends the synthetic
exceed message and hands over to exactly one plain request, having issued
exactly `fuel` tool requests. -/
theorem rounds_loop_all_tools (P : Provider)
    (session : String → String → Except String String) (R : Nat) :
    ∀ (fuel : Nat) (hist : List Message) (ans : String) (tk nTool nPlain : Nat),
      (∀ i, i < fuel → tool_call_response (P.tool_req (nTool + i)) = true) →
      ∃ hist0 ans0 tk0,
        rounds_loop P session R fuel hist ans tk nTool nPlain =
          match P.plain_req nPlain with
          | Except.ok pr =>
            RoundsOut.returned (ans0 ++ pr.1) (tk0 + pr.2) (hist0 ++ [exceed_message R])
              (nTool + fuel) (nPlain + 1)
          | Except.error e =>
            RoundsOut.excRaise e ans0 tk0 (hist0 ++ [exceed_message R])
              (nTool + fuel) (nPlain + 1) := by
  intro fuel
  induction fuel with
  | zero =>
    intro hist ans tk nTool nPlain _h
    refine ⟨hist, ans, tk, ?_⟩
    simp only [rounds_loop, Nat.add_zero]
  | succ f ih =>
    intro hist ans tk nTool nPlain h
    have h0 : tool_call_response (P.tool_req nTool) = true := by
      have := h 0 (Nat.succ_pos f)
      simpa using this
    cases hreq : P.tool_req nTool with
    | error e =>
      rw [hreq] at h0
      simp [tool_call_response] at h0
    | ok resp =>
      rw [hreq] at h0
      cases hmsg : resp.message with
      | none =>
        simp [tool_call_response, hmsg] at h0
      | some m =>
        have hne : m.tool_calls.isEmpty = false := by
          cases hE : m.tool_calls.isEmpty
          · rfl
          · exfalso
            simp [tool_call_response, hmsg, hE] at h0
        obtain ⟨h0', a0', t0', heq⟩ :=
          ih (run_tool_calls session m.tool_calls hist ans).1
             (run_tool_calls session m.tool_calls hist ans).2
             (tk + resp.tokens) (nTool + 1) nPlain
             (fun i hi => by
               have := h (i + 1) (by omega)
               have harith : nTool + (i + 1) = nTool + 1 + i := by omega
               rw [harith] at this
               exact this)
        refine ⟨h0', a0', t0', ?_⟩
        simp only [rounds_loop, hreq, hmsg, hne, Bool.false_eq_true, if_false]
        have harith : nTool + 1 + f = nTool + (f + 1) := by omega
        rw [harith] at heq
        exact heq

/-- C1: with `max_rounds = R`, against a model whose response carries tool calls
on every round and a final plain request that succeeds, `Base.chat_with_tools`
issues exactly `R + 1` tool-attached completion requests, appends the synthetic
"Exceed max rounds" user message (the final history ends with it), issues
exactly one plain non-tool completion request, and returns on the first attempt
with an answer — it never loops unboundedly. -/
theorem chat_with_tools_round_bound (P : Provider)
    (session : String → String → Except String String)
    (N R : Nat) (system : String) (history : List Message) (pr : String × Nat)
    (h1 : ∀ i, i ≤ R → tool_call_response (P.tool_req i) = true)
    (h2 : P.plain_req 0 = Except.ok pr) :
    (chat_with_tools P session N R system history).nTool = R + 1 ∧
    (chat_with_tools P session N R system history).nPlain = 1 ∧
    (chat_with_tools P session N R system history).attempts = 1 ∧
    (chat_with_tools P session N R system history).result.isSome = true ∧
    (chat_with_tools P session N R system history).hist.getLast? =
      some (exceed_message R) := by
  obtain ⟨h0, a0, t0, heq⟩ :=
    rounds_loop_all_tools P session R (R + 1) (normalize_history system history) "" 0 0 0
      (fun i hi => by
        have := h1 i (by omega)
        simpa using this)
  rw [h2] at heq
  unfold chat_with_tools
  simp only [attempts_loop]
  rw [heq]
  simp [List.getLast?_concat]

/-- Witness for `chat_with_tools_round_bound`: `max_rounds = 1` against the
always-tool-calling provider gives 2 tool requests, 1 plain request, 1 attempt. -/
theorem chat_with_tools_round_bound_w :
    (chat_with_tools loop_provider ok_session 0 1 "" [user_hi]).nTool = 2 ∧
    (chat_with_tools loop_provider ok_session 0 1 "" [user_hi]).nPlain = 1 ∧
    (chat_with_tools loop_provider ok_session 0 1 "" [user_hi]).attempts = 1 ∧
    (chat_with_tools loop_provider ok_session 0 1 "" [user_hi]).result.isSome = true ∧
    (chat_with_tools loop_provider ok_session 0 1 "" [user_hi]).hist.getLast? =
      some (exceed_message 1) := by
  exact chat_with_tools_round_bound loop_provider ok_session 0 1 "" [user_hi]
    ("forced final", 2) (fun i _ => rfl) rfl

/-- C4 (code bug evidence): in `Base.chat_with_tools`, after attempt 0 executes a
tool call and then fails with a retryable rate-limit error, attempt 1 starts NOT
from the original caller-supplied history but from the history polluted by the
failed attempt's appended assistant/tool entries — because line 370 rebinds
`history = hist` without the deepcopy that the async variant (line 424) and the
LiteLLM variant (line 1172, "deepcopy is required here") perform. -/
theorem chat_with_tools_retry_history_bug :
    (chat_with_tools cx_provider ok_session 1 5 "" [user_hi]).attempts = 2 ∧
    (chat_with_tools cx_provider ok_session 1 5 "" [user_hi]).startHists.get? 0 =
      some [user_hi] ∧
    (chat_with_tools cx_provider ok_session 1 5 "" [user_hi]).startHists.get? 1 ≠
      some [user_hi] ∧
    (chat_with_tools cx_provider ok_session 1 5 "" [user_hi]).startHists.get? 1 =
      some (append_history [user_hi] demo_call "ok") := by
  refine ⟨?_, ?_, ?_, ?_⟩ <;> decide

/-- Appending no argument text leaves a stored call unchanged. -/
theorem add_args_empty (c : ToolCall) : add_args c "" = c := by
  unfold add_args
  rw [String.append_empty]

/-- Unfolding `lookup_call` over a cons cell. -/
theorem lookup_call_cons (p : Nat × ToolCall) (t : List (Nat × ToolCall)) (i : Nat) :
    lookup_call (p :: t) i = if p.1 == i then some p.2 else lookup_call t i := by
  unfold lookup_call
  cases hp : (p.1 == i) <;> simp [List.find?, hp]

/-- `lookup_call` over a one-element extension on the right: the original map
takes precedence, the new entry answers only misses. -/
theorem lookup_call_append_single (m : List (Nat × ToolCall)) (x : Nat × ToolCall) (i : Nat) :
    lookup_call (m ++ [x]) i =
      match lookup_call m i with
      | some c => some c
      | none => if x.1 == i then some x.2 else none := by
  induction m with
  | nil =>
    cases hx : (x.1 == i) <;> simp [lookup_call, List.find?, hx]
  | cons p t ih =>
    simp only [List.cons_append, lookup_call_cons]
    cases hp : (p.1 == i) <;> simp [hp, ih]

/-- `lookup_call` through the value-updating map of `upsert_fragment`'s hit
branch: only the entry at key `j` changes, and it changes by `add_args`. -/
theorem lookup_map_update (i j : Nat) (s : String) :
    ∀ m : List (Nat × ToolCall),
      lookup_call (m.map (fun p => if p.1 == j then (p.1, add_args p.2 s) else p)) i =
        if i == j then (lookup_call m i).map (fun c => add_args c s) else lookup_call m i := by
  intro m
  induction m with
  | nil => cases hij : (i == j) <;> simp [lookup_call, List.find?, hij]
  | cons p t ih =>
    cases hpj : (p.1 == j) <;> cases hpi : (p.1 == i) <;> cases hij : (i == j) <;>
      simp_all [List.map_cons, lookup_call_cons]

/-- The effect of one `upsert_fragment` step on `lookup_call`: at the fragment's
index a miss stores the initialised call and a hit concatenates the fragment's
argument text; every other index is untouched. -/
theorem lookup_upsert (m : List (Nat × ToolCall)) (tc : StreamToolCall) (i : Nat) :
    lookup_call (upsert_fragment m tc) i =
      if i == tc.index then
        match lookup_call m tc.index with
        | none => some (stream_call_init tc)
        | some c => some (add_args c (tc.arguments.getD ""))
      else lookup_call m i := by
  unfold upsert_fragment
  cases hl : lookup_call m tc.index with
  | none =>
    rw [lookup_call_append_single]
    cases hit : (i == tc.index) with
    | false =>
      have hne : ¬ i = tc.index := by simpa using hit
      have hxf : (tc.index == i) = false := by simp [Ne.symm hne]
      cases hmi : lookup_call m i <;> simp [hmi, hxf]
    | true =>
      have hii : i = tc.index := by simpa using hit
      rw [hii, hl]
      simp
  | some c =>
    rw [lookup_map_update i tc.index (tc.arguments.getD "") m]
    cases hit : (i == tc.index) with
    | false => simp
    | true =>
      have hii : i = tc.index := by simpa using hit
      rw [hii, hl]
      simp

/-- Unfolding `concat_args` over a cons cell. -/
theorem concat_args_cons (i : Nat) (f : StreamToolCall) (rest : List StreamToolCall) :
    concat_args i (f :: rest) =
      (if f.index == i then f.arguments.getD "" else "") ++ concat_args i rest := rfl

/-- Folding a fragment list into the accumulation map: at every index the result
is the stored call extended by the concatenation of the matching fragments, or
the spec-side assembled call when the index was previously absent. -/
theorem lookup_foldl_upsert (i : Nat) :
    ∀ (frags : List StreamToolCall) (m : List (Nat × ToolCall)),
      lookup_call (frags.foldl upsert_fragment m) i =
        match lookup_call m i with
        | some c => some (add_args c (concat_args i frags))
        | none => spec_assembled_call frags i := by
  intro frags
  induction frags with
  | nil =>
    intro m
    simp only [List.foldl, concat_args, spec_assembled_call, List.find?]
    cases hm : lookup_call m i <;> simp [hm, add_args_empty]
  | cons f rest ih =>
    intro m
    simp only [List.foldl]
    rw [ih (upsert_fragment m f), lookup_upsert m f i]
    cases hif : (i == f.index) with
    | false =>
      have hne : ¬ i = f.index := by simpa using hif
      have hfi : (f.index == i) = false := by simp [Ne.symm hne]
      cases hm : lookup_call m i with
      | none =>
        simp only [hm]
        unfold spec_assembled_call
        rw [concat_args_cons]
        simp only [List.find?, hfi]
        cases hf : List.find? (fun g => g.index == i) rest <;> simp [hf]
      | some c =>
        simp only [hm]
        rw [concat_args_cons, hfi]
        simp
    | true =>
      have hii : i = f.index := by simpa using hif
      have hfi : (f.index == i) = true := by simp [hii]
      rw [← hii]
      cases hm : lookup_call m i with
      | none =>
        simp only [hm]
        unfold spec_assembled_call
        rw [concat_args_cons, hfi]
        simp [List.find?, hfi, add_args, stream_call_init, hii]
      | some c =>
        simp only [hm]
        rw [concat_args_cons, hfi]
        simp [add_args, String.append_assoc]

/-- The `final_tool_calls` map built by the chunk loop equals the fold of
`upsert_fragment` over all fragments in arrival order (chunks without tool-call
fragments contribute nothing). -/
theorem run_ftc (chunks : List StreamChunk) :
    ∀ st : RoundStreamState,
      (chunks.foldl process_chunk st).final_tool_calls =
        ((chunks.map (fun c => c.tool_calls)).flatten).foldl upsert_fragment
          st.final_tool_calls := by
  induction chunks with
  | nil => intro st; simp
  | cons c rest ih =>
    intro st
    simp only [List.foldl, List.map_cons, List.flatten_cons]
    rw [List.foldl_append, ih (process_chunk st c)]
    congr 1
    unfold process_chunk
    by_cases hc : c.tool_calls.isEmpty = false
    · rw [if_pos hc]
    · rw [if_neg hc]
      have hnil : c.tool_calls = [] := by
        cases hE : c.tool_calls.isEmpty
        · exact absurd hE hc
        · exact List.isEmpty_iff.mp hE
      rw [hnil]
      simp only [List.foldl]
      split <;> split <;> rfl

/-- Chunks carrying tool-call fragments touch only the accumulation map: the
reasoning flag, visible answer, token counter and yield list of the chunk loop
are identical with and without those chunks. -/
theorem process_filter_agree (chunks : List StreamChunk) :
    ∀ s t : RoundStreamState,
      s.reasoning_start = t.reasoning_start → s.answer = t.answer →
      s.total_tokens = t.total_tokens → s.yields = t.yields →
      ((chunks.foldl process_chunk s).reasoning_start =
          ((chunks.filter (fun c => c.tool_calls.isEmpty)).foldl process_chunk t).reasoning_start ∧
        (chunks.foldl process_chunk s).answer =
          ((chunks.filter (fun c => c.tool_calls.isEmpty)).foldl process_chunk t).answer ∧
        (chunks.foldl process_chunk s).total_tokens =
          ((chunks.filter (fun c => c.tool_calls.isEmpty)).foldl process_chunk t).total_tokens ∧
        (chunks.foldl process_chunk s).yields =
          ((chunks.filter (fun c => c.tool_calls.isEmpty)).foldl process_chunk t).yields) := by
  induction chunks with
  | nil => intro s t h1 h2 h3 h4; exact ⟨h1, h2, h3, h4⟩
  | cons c rest ih =>
    intro s t h1 h2 h3 h4
    by_cases hc : c.tool_calls.isEmpty = true
    · rw [show List.filter (fun x => x.tool_calls.isEmpty) (c :: rest) =
            c :: List.filter (fun x => x.tool_calls.isEmpty) rest from by
          simp [List.filter_cons, hc]]
      simp only [List.foldl]
      apply ih
      all_goals
        unfold process_chunk
        cases htk : (c.usage_tokens == 0) <;> cases hrc : (c.reasoning_content != "") <;>
          simp [hc, htk, hrc, h1, h2, h3, h4]
    · have hcf : c.tool_calls.isEmpty = false := by
        cases hE : c.tool_calls.isEmpty
        · rfl
        · exact absurd hE hc
      rw [show List.filter (fun x => x.tool_calls.isEmpty) (c :: rest) =
            List.filter (fun x => x.tool_calls.isEmpty) rest from by
          simp [List.filter_cons, hcf]]
      simp only [List.foldl]
      apply ih
      all_goals
        unfold process_chunk
        simp [hcf, h1, h2, h3, h4]

/-- C5: streaming tool-call fragments are reassembled per index — the stored call
at index `i` takes its id and name from the first fragment at `i` (with an
empty-string accumulator when arguments are absent) and its argument string is
the concatenation of all fragments at `i` in arrival order — such chunks
contribute nothing to the visible text stream, and in particular the fragments
`(index 0, args "\x7b\"a\"")` then `(index 0, args ":1\x7d")` assemble to the
argument string `\x7b"a":1\x7d` at index 0 with no visible yields. -/
theorem stream_tool_fragment_assembly :
    (∀ (chunks : List StreamChunk) (i : Nat),
      lookup_call (run_stream chunks).final_tool_calls i =
        spec_assembled_call ((chunks.map (fun c => c.tool_calls)).flatten) i) ∧
    (∀ chunks : List StreamChunk,
      (run_stream chunks).yields =
        (run_stream (chunks.filter (fun c => c.tool_calls.isEmpty))).yields) ∧
    (lookup_call
        (run_stream
          [{ tool_calls := [{ index := 0, id := "id0", name := "f",
                              arguments := some "\x7b\"a\"" }],
             content := "", reasoning_content := "", finish_reason := "", usage_tokens := 0 },
           { tool_calls := [{ index := 0, id := "", name := "",
                              arguments := some ":1\x7d" }],
             content := "", reasoning_content := "", finish_reason := "",
             usage_tokens := 0 }]).final_tool_calls 0 =
        some { index := 0, id := "id0",
               function := { name := "f", arguments := "\x7b\"a\":1\x7d" } } ∧
      (run_stream
          [{ tool_calls := [{ index := 0, id := "id0", name := "f",
                              arguments := some "\x7b\"a\"" }],
             content := "", reasoning_content := "", finish_reason := "", usage_tokens := 0 },
           { tool_calls := [{ index := 0, id := "", name := "",
                              arguments := some ":1\x7d" }],
             content := "", reasoning_content := "", finish_reason := "",
             usage_tokens := 0 }]).yields = []) := by
  refine ⟨?_, ?_, by decide, by decide⟩
  · intro chunks i
    rw [run_stream, run_ftc chunks, lookup_foldl_upsert]
    rfl
  · intro chunks
    exact (process_filter_agree chunks _ _ rfl rfl rfl rfl).2.2.2

end RagChat
